import Mathlib

/-!
Shallow embedding of libseccomp's architecture layer (`src/arch.c`).

The C file dispatches on an architecture token to per-architecture syscall
tables, argument-offset helpers and quirk rewriters, and implements the
name-bridged cross-architecture syscall translator.  Pure C functions become
Lean functions; the C out-parameters (`int *syscall`, the chain) become extra
components of the returned tuple; `NULL` pointers become `Option.none`.
The per-architecture data and helpers that live in headers outside `src/`
(`arch-i386.h`, `arch-x86_64.h`, `seccomp.h`, the rule database's
`struct db_api_arg`) are modelled from the spec and marked as such.
-/

namespace Seccomp

/-- Architecture token for 32-bit x86, constant AUDIT_ARCH_I386 from
linux/audit.h. -/
def AUDIT_ARCH_I386 : Nat := 0x40000003

/-- Architecture token for 64-bit x86, constant AUDIT_ARCH_X86_64 from
linux/audit.h. -/
def AUDIT_ARCH_X86_64 : Nat := 0xC000003E

/-- The errno constant EDOM, returned negated by the dispatchers in `arch.c`
for an unsupported architecture token. -/
def EDOM : Int := 33

/-- The errno constant EFAULT, returned negated by `arch_syscall_translate`
when the name bridge fails. -/
def EFAULT : Int := 14

/-- Error sentinel __NR_SCMP_ERROR from seccomp.h.  The doc comment of
`arch_syscall_resolve_name` in `src/arch.c` states that resolution
"returns -1 on failure" and the code returns __NR_SCMP_ERROR there, fixing
its value to -1; it also terminates the number-keyed table iteration in
`arch_syscall_resolve_num`. -/
def SCMP_ERROR : Int := -1

/-- Word-size class ARCH_SIZE_32 (arch.h). -/
def ARCH_SIZE_32 : Nat := 32

/-- Word-size class ARCH_SIZE_64 (arch.h). -/
def ARCH_SIZE_64 : Nat := 64

/-- Byte-order class ARCH_ENDIAN_LITTLE (arch.h). -/
def ARCH_ENDIAN_LITTLE : Nat := 1

/-- Byte-order class ARCH_ENDIAN_BIG (arch.h). -/
def ARCH_ENDIAN_BIG : Nat := 2

/-- The architecture descriptor `struct arch_def`: identifying token, word
size class and byte order.  Only `token` is read by the logic in
`src/arch.c`. -/
structure arch_def where
  token : Nat
  size : Nat
  endian : Nat
  deriving DecidableEq, Repr

/-- The native descriptor `arch_def_native` as compiled on an i386 host
(the `#if __i386__` branch of `src/arch.c`). -/
def arch_def_native_i386 : arch_def :=
  ⟨AUDIT_ARCH_I386, ARCH_SIZE_32, ARCH_ENDIAN_LITTLE⟩

/-- The native descriptor `arch_def_native` as compiled on an x86_64 host
(the `#elif __x86_64__` branch of `src/arch.c`). -/
def arch_def_native_x86_64 : arch_def :=
  ⟨AUDIT_ARCH_X86_64, ARCH_SIZE_64, ARCH_ENDIAN_LITTLE⟩

/-- One syscall table entry `struct arch_syscall_def`: a name and a signed
number.  `none` models a NULL name pointer (the terminator of the name-keyed
iteration). -/
structure arch_syscall_def where
  name : Option String
  num : Int
  deriving DecidableEq, Repr

/-- Modelled from the spec: the static i386 syscall table
`i386_syscall_table` lives in `arch-i386.h`, which is not under `src/`.
Per the spec the table is a static list of (name, number) pairs, with
negative pseudo numbers for calls with no kernel number, terminated by a
sentinel entry whose name is absent and whose number is the error
sentinel. -/
def i386_syscall_table : List arch_syscall_def :=
  [⟨some "read", 3⟩, ⟨some "write", 4⟩, ⟨some "open", 5⟩, ⟨some "close", 6⟩,
   ⟨some "waitpid", 7⟩, ⟨some "socket", -101⟩, ⟨none, SCMP_ERROR⟩]

/-- Modelled from the spec: the static x86_64 syscall table
`x86_64_syscall_table` lives in `arch-x86_64.h`, which is not under `src/`.
Same shape as the i386 table, with x86_64's own numbering. -/
def x86_64_syscall_table : List arch_syscall_def :=
  [⟨some "read", 0⟩, ⟨some "write", 1⟩, ⟨some "open", 2⟩, ⟨some "close", 3⟩,
   ⟨some "socket", 41⟩, ⟨some "openat", 257⟩, ⟨none, SCMP_ERROR⟩]

/-- Embedding of `_arch_def_lookup`: the switch on the token returning the
architecture's syscall table, `none` (NULL) for an unmodeled token. -/
def _arch_def_lookup (token : Nat) : Option (List arch_syscall_def) :=
  if token = AUDIT_ARCH_I386 then some i386_syscall_table
  else if token = AUDIT_ARCH_X86_64 then some x86_64_syscall_table
  else none

/-- The scan loop of `arch_syscall_resolve_name`: iterate while
`table[iter].name != NULL`, return `table[iter].num` on a string match,
and __NR_SCMP_ERROR once the terminator (or the end of the list) is
reached without a match. -/
def syscall_table_lookup_name (name : String) : List arch_syscall_def → Int
  | [] => SCMP_ERROR
  | e :: rest =>
    match e.name with
    | none => SCMP_ERROR
    | some s => if name = s then e.num else syscall_table_lookup_name name rest

/-- The scan loop of `arch_syscall_resolve_num`: iterate while
`table[iter].num != __NR_SCMP_ERROR`, return `table[iter].name` on a number
match, and NULL (`none`) once the terminator (or the end of the list) is
reached without a match. -/
def syscall_table_lookup_num (num : Int) : List arch_syscall_def → Option String
  | [] => none
  | e :: rest =>
    if e.num = SCMP_ERROR then none
    else if num = e.num then e.name
    else syscall_table_lookup_num num rest

/-- Embedding of `arch_syscall_resolve_name`: look up the table for the
token; on NULL return __NR_SCMP_ERROR, otherwise scan by name. -/
def arch_syscall_resolve_name (arch : arch_def) (name : String) : Int :=
  match _arch_def_lookup arch.token with
  | none => SCMP_ERROR
  | some table => syscall_table_lookup_name name table

/-- Embedding of `arch_syscall_resolve_num`: look up the table for the
token; on NULL return NULL, otherwise scan by number. -/
def arch_syscall_resolve_num (arch : arch_def) (num : Int) : Option String :=
  match _arch_def_lookup arch.token with
  | none => none
  | some table => syscall_table_lookup_num num table

/-- Embedding of `arch_syscall_translate`.  The C function reads the global
`arch_def_native`, passed here as the explicit `native` argument (its value
is selected at compile time between the i386 and x86_64 descriptors); the
out-parameter `*syscall` becomes the second component of the result and the
`int` return value the first.  If the target token differs from the native
one, bridge through the native name; on either resolution failure return
-EFAULT leaving the syscall untouched, otherwise store the resolved number
and return 0. -/
def arch_syscall_translate (native arch : arch_def) (syscall : Int) :
    Int × Int :=
  if arch.token ≠ native.token then
    match arch_syscall_resolve_num native syscall with
    | none => (-EFAULT, syscall)
    | some sc_name =>
      let sc_num := arch_syscall_resolve_name arch sc_name
      if sc_num = SCMP_ERROR then (-EFAULT, syscall)
      else (0, sc_num)
  else (0, syscall)

/-- Modelled from the spec: `i386_arg_count_max` lives in `arch-i386.h`,
not under `src/`; the architecture-fixed maximum number of syscall
arguments. -/
def i386_arg_count_max : Int := 6

/-- Modelled from the spec: `x86_64_arg_count_max` lives in `arch-x86_64.h`,
not under `src/`; the architecture-fixed maximum number of syscall
arguments. -/
def x86_64_arg_count_max : Int := 6

/-- Modelled from the spec: `x86_64_arg_offset_lo` lives in `arch-x86_64.h`,
not under `src/`.  Per the spec it returns the byte offset of the low 32-bit
half of the given argument slot within the comparison context (a fixed-size
header precedes the 8-byte argument slots; x86_64 is little-endian so the
low half comes first), and an out-of-range index (at or above
`x86_64_arg_count_max`) is rejected with a failure code, never clamped. -/
def x86_64_arg_offset_lo (arg : Nat) : Int :=
  if (arg : Int) < x86_64_arg_count_max then 16 + 8 * (arg : Int) else -EDOM

/-- Modelled from the spec: `x86_64_arg_offset_hi` lives in `arch-x86_64.h`,
not under `src/`.  Byte offset of the high 32-bit half of the given argument
slot, with the same out-of-range rejection as the low half. -/
def x86_64_arg_offset_hi (arg : Nat) : Int :=
  if (arg : Int) < x86_64_arg_count_max then 16 + 8 * (arg : Int) + 4
  else -EDOM

/-- Embedding of `arch_arg_count_max`: the switch on the token, -EDOM for
an unsupported token. -/
def arch_arg_count_max (arch : arch_def) : Int :=
  if arch.token = AUDIT_ARCH_I386 then i386_arg_count_max
  else if arch.token = AUDIT_ARCH_X86_64 then x86_64_arg_count_max
  else -EDOM

/-- Embedding of `arch_arg_offset_lo`: only the x86_64 case is handled,
every other token falls to the default -EDOM. -/
def arch_arg_offset_lo (arch : arch_def) (arg : Nat) : Int :=
  if arch.token = AUDIT_ARCH_X86_64 then x86_64_arg_offset_lo arg else -EDOM

/-- Embedding of `arch_arg_offset_hi`: only the x86_64 case is handled,
every other token falls to the default -EDOM. -/
def arch_arg_offset_hi (arch : arch_def) (arg : Nat) : Int :=
  if arch.token = AUDIT_ARCH_X86_64 then x86_64_arg_offset_hi arg else -EDOM

/-- Modelled from the spec: one element of the argument comparison chain.
`struct db_api_arg` is owned by the rule database, not under `src/`; per the
spec it is an ordered tuple of argument index, comparison operator and
value. -/
structure db_api_arg where
  arg : Nat
  op : Nat
  datum : Nat
  deriving DecidableEq, Repr

/-- Modelled from the spec: the i386 multiplexed socket entry point number
(the socketcall syscall), the target of the quirk rewrite; `arch-i386.c` is
not under `src/`. -/
def i386_SYS_socketcall : Int := 102

/-- Modelled from the spec: `i386_syscall_rewrite` lives in `arch-i386.c`,
not under `src/`.  Per the spec the quirk rewriter substitutes a multiplexed
pseudo syscall number (a negative pseudo number below the error sentinel)
with the multiplexed entry point's number, and reports failure
otherwise. -/
def i386_syscall_rewrite (arch : arch_def) (syscall : Int) : Int × Int :=
  if syscall < SCMP_ERROR then (0, i386_SYS_socketcall) else (-EDOM, syscall)

/-- Modelled from the spec: `i386_filter_rewrite` lives in `arch-i386.c`,
not under `src/`.  Per the spec, for a multiplexed pseudo syscall the
rewriter substitutes the multiplexed entry point's number, prepends a
leading comparison pinning the subcall selector, and shifts every existing
argument index up by one. -/
def i386_filter_rewrite (arch : arch_def) (strict : Nat) (syscall : Int)
    (chain : List db_api_arg) : Int × Int × List db_api_arg :=
  if syscall < SCMP_ERROR then
    (0, i386_SYS_socketcall,
      ⟨0, 0, (-syscall - 100).toNat⟩ ::
        chain.map (fun a => ⟨a.arg + 1, a.op, a.datum⟩))
  else (-EDOM, syscall, chain)

/-- Embedding of `arch_syscall_rewrite`: the switch on the token forwards
only the i386 case, every other token falls to the default -EDOM with the
syscall untouched. -/
def arch_syscall_rewrite (arch : arch_def) (syscall : Int) : Int × Int :=
  if arch.token = AUDIT_ARCH_I386 then i386_syscall_rewrite arch syscall
  else (-EDOM, syscall)

/-- Embedding of `arch_filter_rewrite`: the switch on the token forwards
only the i386 case, every other token falls to the default -EDOM with the
syscall and the chain untouched. -/
def arch_filter_rewrite (arch : arch_def) (strict : Nat) (syscall : Int)
    (chain : List db_api_arg) : Int × Int × List db_api_arg :=
  if arch.token = AUDIT_ARCH_I386 then
    i386_filter_rewrite arch strict syscall chain
  else (-EDOM, syscall, chain)

/-- C2: when the target descriptor's token equals the native descriptor's
token, `arch_syscall_translate` returns success (zero) and leaves the
syscall number unchanged, for every syscall number — self-translation is the
identity. -/
theorem claim_C2 (native arch : arch_def) (n : Int)
    (h : arch.token = native.token) :
    arch_syscall_translate native arch n = (0, n) := by
  simp [arch_syscall_translate, h]

/-- Witness for C2 at a concrete input: x86_64 self-translation of the
pseudo number -42 is the identity with a zero return. -/
theorem claim_C2_witness :
    arch_syscall_translate arch_def_native_x86_64 arch_def_native_x86_64
      (-42) = (0, -42) :=
  claim_C2 arch_def_native_x86_64 arch_def_native_x86_64 (-42) rfl

/-- C5: on any architecture whose token is not i386, for any strict flag,
syscall number and argument chain, `arch_filter_rewrite` returns the
unsupported failure -EDOM with the syscall number and the chain unmodified,
and `arch_syscall_rewrite` does the same for the syscall number. -/
theorem claim_C5 (arch : arch_def) (strict : Nat) (n : Int)
    (chain : List db_api_arg) (h : arch.token ≠ AUDIT_ARCH_I386) :
    arch_filter_rewrite arch strict n chain = (-EDOM, n, chain) ∧
    arch_syscall_rewrite arch n = (-EDOM, n) ∧ -EDOM < 0 := by
  refine ⟨?_, ?_, by norm_num [EDOM]⟩
  · simp [arch_filter_rewrite, h]
  · simp [arch_syscall_rewrite, h]

/-- Witness for C5 at a concrete input: x86_64 in strict mode with a
one-element chain gets -EDOM back with syscall and chain untouched. -/
theorem claim_C5_witness :
    arch_filter_rewrite arch_def_native_x86_64 1 2 [⟨0, 0, 3⟩] =
      (-EDOM, 2, [⟨0, 0, 3⟩]) ∧
    arch_syscall_rewrite arch_def_native_x86_64 2 = (-EDOM, 2) ∧
    -EDOM < 0 :=
  claim_C5 arch_def_native_x86_64 1 2 [⟨0, 0, 3⟩] (by decide)

/-- C7: on any architecture whose token is not x86_64 — in particular i386,
which passes arguments as native machine words — `arch_arg_offset_lo` and
`arch_arg_offset_hi` return the failure -EDOM (a negative value) for every
argument index. -/
theorem claim_C7 (arch : arch_def) (arg : Nat)
    (h : arch.token ≠ AUDIT_ARCH_X86_64) :
    arch_arg_offset_lo arch arg = -EDOM ∧
    arch_arg_offset_hi arch arg = -EDOM ∧ -EDOM < 0 := by
  refine ⟨?_, ?_, by norm_num [EDOM]⟩
  · simp [arch_arg_offset_lo, h]
  · simp [arch_arg_offset_hi, h]

/-- Witness for C7 at a concrete input: i386 with argument index 0. -/
theorem claim_C7_witness :
    arch_arg_offset_lo arch_def_native_i386 0 = -EDOM ∧
    arch_arg_offset_hi arch_def_native_i386 0 = -EDOM ∧ -EDOM < 0 :=
  claim_C7 arch_def_native_i386 0 (by decide)

/-- C8: on x86_64 (the only architecture where the half-word offsets are
defined), an argument index at or above the architecture's maximum argument
count makes both `arch_arg_offset_lo` and `arch_arg_offset_hi` return a
negative failure code instead of any offset. -/
theorem claim_C8 (arch : arch_def) (arg : Nat)
    (htok : arch.token = AUDIT_ARCH_X86_64)
    (harg : x86_64_arg_count_max ≤ (arg : Int)) :
    arch_arg_offset_lo arch arg < 0 ∧ arch_arg_offset_hi arch arg < 0 := by
  have hlt : ¬ (arg : Int) < x86_64_arg_count_max := not_lt.mpr harg
  constructor
  · simp only [arch_arg_offset_lo, htok, if_pos rfl, x86_64_arg_offset_lo,
      if_neg hlt]
    norm_num [EDOM]
  · simp only [arch_arg_offset_hi, htok, if_pos rfl, x86_64_arg_offset_hi,
      if_neg hlt]
    norm_num [EDOM]

/-- Witness for C8 at a concrete input: x86_64 with the out-of-range
argument index 6. -/
theorem claim_C8_witness :
    arch_arg_offset_lo arch_def_native_x86_64 6 < 0 ∧
    arch_arg_offset_hi arch_def_native_x86_64 6 < 0 :=
  claim_C8 arch_def_native_x86_64 6 rfl (by decide)

/-- C9: whenever `arch_syscall_translate` returns a nonzero (failure)
result, the caller's syscall number is left exactly as it was on entry. -/
theorem claim_C9 (native arch : arch_def) (n : Int)
    (hfail : (arch_syscall_translate native arch n).1 ≠ 0) :
    (arch_syscall_translate native arch n).2 = n := by
  by_cases htok : arch.token ≠ native.token
  · rcases hres : arch_syscall_resolve_num native n with _ | s
    · simp [arch_syscall_translate, htok, hres]
    · by_cases herr : arch_syscall_resolve_name arch s = SCMP_ERROR
      · simp [arch_syscall_translate, htok, hres, herr]
      · exact absurd (by simp [arch_syscall_translate, htok, hres, herr])
          hfail
  · simp [arch_syscall_translate, htok]

/-- Witness for C9 at a concrete input: translating i386's number 7
(waitpid, which has no x86_64 counterpart in the table) to x86_64 fails and
leaves the number 7 in place. -/
theorem claim_C9_witness :
    (arch_syscall_translate arch_def_native_i386 arch_def_native_x86_64
      7).2 = 7 :=
  claim_C9 arch_def_native_i386 arch_def_native_x86_64 7 (by decide)

/-- C1: when the target token differs from the native one, if resolving the
syscall number to a name on the native architecture succeeds with name `s`,
and resolving `s` to a number on the target architecture succeeds with `m`
(not the error sentinel), then `arch_syscall_translate` returns success
(zero) and stores `m` as the translated syscall number. -/
theorem claim_C1 (native arch : arch_def) (n m : Int) (s : String)
    (htok : arch.token ≠ native.token)
    (hnum : arch_syscall_resolve_num native n = some s)
    (hname : arch_syscall_resolve_name arch s = m)
    (hok : m ≠ SCMP_ERROR) :
    arch_syscall_translate native arch n = (0, m) := by
  simp [arch_syscall_translate, htok, hnum, hname, hok]

/-- Witness for C1 at a concrete input: both tables contain a syscall named
read; translating i386's number 3 for read (native = i386) to x86_64 yields
exactly x86_64's number 0 for read, with a zero return. -/
theorem claim_C1_witness :
    arch_syscall_translate arch_def_native_i386 arch_def_native_x86_64 3 =
      (0, 0) :=
  claim_C1 arch_def_native_i386 arch_def_native_x86_64 3 0 "read"
    (by decide) (by decide) (by decide) (by decide)

/-- C3: when the target token differs from the native one and the name
bridge breaks — either the native table has no name for the number, or the
target table has no number for every name the native table can produce —
`arch_syscall_translate` returns the failure -EFAULT, a negative value, and
never substitutes another syscall number: the stored number stays the
input. -/
theorem claim_C3 (native arch : arch_def) (n : Int)
    (htok : arch.token ≠ native.token)
    (hfail : arch_syscall_resolve_num native n = none ∨
      ∃ s, arch_syscall_resolve_num native n = some s ∧
        arch_syscall_resolve_name arch s = SCMP_ERROR) :
    (arch_syscall_translate native arch n).1 = -EFAULT ∧
    (arch_syscall_translate native arch n).1 < 0 ∧
    (arch_syscall_translate native arch n).2 = n := by
  rcases hfail with hnone | ⟨s, hs, herr⟩
  · refine ⟨?_, ?_, ?_⟩ <;>
      simp [arch_syscall_translate, htok, hnone, EFAULT]
  · refine ⟨?_, ?_, ?_⟩ <;>
      simp [arch_syscall_translate, htok, hs, herr, EFAULT]

/-- Witness for C3 at a concrete input: i386's number 7 resolves to the name
waitpid, which the x86_64 table does not contain, so translation to x86_64
fails with -EFAULT and does not return a near-miss number. -/
theorem claim_C3_witness :
    (arch_syscall_translate arch_def_native_i386 arch_def_native_x86_64
      7).1 = -EFAULT ∧
    (arch_syscall_translate arch_def_native_i386 arch_def_native_x86_64
      7).1 < 0 ∧
    (arch_syscall_translate arch_def_native_i386 arch_def_native_x86_64
      7).2 = 7 :=
  claim_C3 arch_def_native_i386 arch_def_native_x86_64 7 (by decide)
    (Or.inr ⟨"waitpid", by decide, by decide⟩)

/-- The name scan finds an entry whose name matches, provided every earlier
entry has a name (is not the terminator) and that name differs from the one
searched for. -/
theorem lookup_name_of_mem (s : String) (pre : List arch_syscall_def)
    (e : arch_syscall_def) (post : List arch_syscall_def)
    (hname : e.name = some s)
    (hpre : ∀ e' ∈ pre, ∃ s', e'.name = some s' ∧ s' ≠ s) :
    syscall_table_lookup_name s (pre ++ e :: post) = e.num := by
  induction pre with
  | nil => simp [syscall_table_lookup_name, hname]
  | cons a rest ih =>
    obtain ⟨s', hs', hne⟩ := hpre a (List.mem_cons_self _ _)
    have hns : ¬ s = s' := fun h => hne h.symm
    simp only [List.cons_append, syscall_table_lookup_name, hs', if_neg hns]
    exact ih fun e' he' => hpre e' (List.mem_cons_of_mem a he')

/-- The number scan finds an entry whose number matches, provided the entry
is not the terminator and every earlier entry is neither the terminator nor
carries the same number. -/
theorem lookup_num_of_mem (pre : List arch_syscall_def)
    (e : arch_syscall_def) (post : List arch_syscall_def)
    (hterm : e.num ≠ SCMP_ERROR)
    (hpre : ∀ e' ∈ pre, e'.num ≠ SCMP_ERROR ∧ e'.num ≠ e.num) :
    syscall_table_lookup_num e.num (pre ++ e :: post) = e.name := by
  induction pre with
  | nil => simp [syscall_table_lookup_num, hterm]
  | cons a rest ih =>
    obtain ⟨ha, hane⟩ := hpre a (List.mem_cons_self _ _)
    have hns : ¬ e.num = a.num := fun h => hane h.symm
    simp only [List.cons_append, syscall_table_lookup_num, if_neg ha,
      if_neg hns]
    exact ih fun e' he' => hpre e' (List.mem_cons_of_mem a he')

/-- The name scan returns the error sentinel when no entry of the table
carries the searched name. -/
theorem lookup_name_of_absent (s : String) (table : List arch_syscall_def)
    (habs : ∀ e ∈ table, e.name ≠ some s) :
    syscall_table_lookup_name s table = SCMP_ERROR := by
  induction table with
  | nil => rfl
  | cons a rest ih =>
    rcases ha : a.name with _ | s'
    · simp [syscall_table_lookup_name, ha]
    · have hne : ¬ s = s' := fun h => habs a (List.mem_cons_self _ _) (h ▸ ha)
      simp only [syscall_table_lookup_name, ha, if_neg hne]
      exact ih fun e' he' => habs e' (List.mem_cons_of_mem a he')

/-- C4: for every supported architecture and every non-pseudo entry of its
syscall table — given the table invariants that earlier entries are not
terminators, have distinct names and distinct numbers — resolving the
entry's name yields its number and resolving its number yields its name:
the two lookups are mutually inverse on valid non-pseudo entries. -/
theorem claim_C4 (arch : arch_def) (table pre post : List arch_syscall_def)
    (e : arch_syscall_def) (s : String)
    (hlk : _arch_def_lookup arch.token = some table)
    (hsplit : table = pre ++ e :: post)
    (hname : e.name = some s)
    (hnum : 0 ≤ e.num)
    (hpre : ∀ e' ∈ pre, (∃ s', e'.name = some s' ∧ s' ≠ s) ∧
      e'.num ≠ SCMP_ERROR ∧ e'.num ≠ e.num) :
    arch_syscall_resolve_name arch s = e.num ∧
    arch_syscall_resolve_num arch e.num = some s := by
  have hterm : e.num ≠ SCMP_ERROR := by
    intro h
    rw [h] at hnum
    exact absurd hnum (by norm_num [SCMP_ERROR])
  constructor
  · rw [arch_syscall_resolve_name, hlk, hsplit]
    exact lookup_name_of_mem s pre e post hname
      fun e' he' => (hpre e' he').1
  · rw [arch_syscall_resolve_num, hlk, hsplit]
    exact (lookup_num_of_mem pre e post hterm
      fun e' he' => (hpre e' he').2).trans hname

/-- Witness for C4 at a concrete input: the i386 entry (open, 5), preceded
in the table by the read, write entries. -/
theorem claim_C4_witness :
    arch_syscall_resolve_name arch_def_native_i386 "open" =
      (⟨some "open", 5⟩ : arch_syscall_def).num ∧
    arch_syscall_resolve_num arch_def_native_i386
      (⟨some "open", 5⟩ : arch_syscall_def).num = some "open" :=
  claim_C4 arch_def_native_i386 i386_syscall_table
    [⟨some "read", 3⟩, ⟨some "write", 4⟩]
    [⟨some "close", 6⟩, ⟨some "waitpid", 7⟩, ⟨some "socket", -101⟩,
     ⟨none, SCMP_ERROR⟩]
    ⟨some "open", 5⟩ "open" rfl rfl rfl (by decide)
    (by
      intro e' he'
      fin_cases he'
      · exact ⟨⟨"read", rfl, by decide⟩, by decide, by decide⟩
      · exact ⟨⟨"write", rfl, by decide⟩, by decide, by decide⟩)

/-- C6: on a supported architecture, a name matching no table entry makes
`arch_syscall_resolve_name` return the reserved error sentinel (a plain
return value, not a raised fault); and that sentinel never equals any real
(non-pseudo, hence nonnegative) syscall number present in any supported
architecture's table. -/
theorem claim_C6 (arch : arch_def) (table : List arch_syscall_def)
    (name : String)
    (hlk : _arch_def_lookup arch.token = some table)
    (habs : ∀ e ∈ table, e.name ≠ some name) :
    arch_syscall_resolve_name arch name = SCMP_ERROR ∧
    ∀ tok t e, _arch_def_lookup tok = some t → e ∈ t → 0 ≤ e.num →
      SCMP_ERROR ≠ e.num := by
  constructor
  · rw [arch_syscall_resolve_name, hlk]
    exact lookup_name_of_absent name table habs
  · intro tok t e hlk' hmem hpos
    rw [_arch_def_lookup] at hlk'
    split at hlk'
    · cases hlk'
      exact (by decide :
        ∀ e ∈ i386_syscall_table, 0 ≤ e.num → SCMP_ERROR ≠ e.num)
        e hmem hpos
    · split at hlk'
      · cases hlk'
        exact (by decide :
          ∀ e ∈ x86_64_syscall_table, 0 ≤ e.num → SCMP_ERROR ≠ e.num)
          e hmem hpos
      · cases hlk'

/-- Witness for C6 at a concrete input: the name mknodat matches no entry
of the i386 table. -/
theorem claim_C6_witness :
    arch_syscall_resolve_name arch_def_native_i386 "mknodat" = SCMP_ERROR ∧
    ∀ tok t e, _arch_def_lookup tok = some t → e ∈ t → 0 ≤ e.num →
      SCMP_ERROR ≠ e.num :=
  claim_C6 arch_def_native_i386 i386_syscall_table "mknodat" rfl (by decide)

/-- C10: `arch_syscall_resolve_name` returns the very same error sentinel
for an unsupported (unmodeled) architecture token as for a name merely
absent from a supported architecture's table, so its return value alone
cannot distinguish the two conditions — unlike `arch_arg_count_max`, which
signals an unsupported token with the dedicated failure code -EDOM, a value
distinct from the sentinel. -/
theorem claim_C10 (a1 a2 : arch_def) (t2 : List arch_syscall_def)
    (name1 name2 : String)
    (h1 : _arch_def_lookup a1.token = none)
    (h2 : _arch_def_lookup a2.token = some t2)
    (habs : ∀ e ∈ t2, e.name ≠ some name2) :
    arch_syscall_resolve_name a1 name1 =
      arch_syscall_resolve_name a2 name2 ∧
    arch_syscall_resolve_name a1 name1 = SCMP_ERROR ∧
    arch_arg_count_max a1 = -EDOM ∧ -EDOM ≠ SCMP_ERROR := by
  have hres1 : arch_syscall_resolve_name a1 name1 = SCMP_ERROR := by
    rw [arch_syscall_resolve_name, h1]
  have hres2 : arch_syscall_resolve_name a2 name2 = SCMP_ERROR := by
    rw [arch_syscall_resolve_name, h2]
    exact lookup_name_of_absent name2 t2 habs
  have hni : a1.token ≠ AUDIT_ARCH_I386 := by
    intro h
    rw [_arch_def_lookup, if_pos h] at h1
    cases h1
  have hnx : a1.token ≠ AUDIT_ARCH_X86_64 := by
    intro h
    rw [_arch_def_lookup, if_neg (h ▸ (by decide)), if_pos h] at h1
    cases h1
  refine ⟨hres1.trans hres2.symm, hres1, ?_, by decide⟩
  rw [arch_arg_count_max, if_neg hni, if_neg hnx]

/-- Witness for C10 at a concrete input: the unmodeled token 0 with the name
read on one side, and the i386 table with the absent name mknod on the
other. -/
theorem claim_C10_witness :
    arch_syscall_resolve_name ⟨0, 0, 0⟩ "read" =
      arch_syscall_resolve_name arch_def_native_i386 "mknod" ∧
    arch_syscall_resolve_name ⟨0, 0, 0⟩ "read" = SCMP_ERROR ∧
    arch_arg_count_max ⟨0, 0, 0⟩ = -EDOM ∧ -EDOM ≠ SCMP_ERROR :=
  claim_C10 ⟨0, 0, 0⟩ arch_def_native_i386 i386_syscall_table "read" "mknod"
    rfl rfl (by decide)

end Seccomp
